import Mathlib

/-!
Verification of the statistical reduction pipeline of the `dsca` repository
(`process.py`).  The Python code is embedded shallowly: text files become
lists of line strings (each line given without its terminating newline),
Python floats become rationals, `math.sqrt` (an external library call on
floats) becomes an explicit function parameter, and code that can raise an
uncaught Python exception becomes a function into `Except PyErr`.
-/

set_option maxHeartbeats 1000000

namespace Process

/-- Failure kinds with which the code in `process.py` can stop.  The first
four model uncaught Python exceptions (`ZeroDivisionError`, `IndexError`,
`AttributeError`, `UnboundLocalError`); `usageExit` models `exitmsg`
(message plus `sys.exit(1)`); `emptyInput` models the structured
`EmptyInputError` postulated by the specification for an empty valid-record
set — no such error exists in the code, the constructor is present only so
that statements can compare the code's actual failure mode against it. -/
inductive PyErr where
  | zeroDivision
  | indexError
  | attributeError
  | unboundLocal
  | usageExit
  | emptyInput
deriving DecidableEq

/-- `DataLine` from `process.py`: the fields that matter from a single
summary-file entry (`fname`, `depth`, `stiff`, `hard`) together with the
verbatim (stripped) line of text it came from. -/
structure DataLine where
  fname : String
  depth : ℚ
  stiff : ℚ
  hard : ℚ
  line : String
deriving DecidableEq

/-- `DataSample` from `process.py`: one row of a data-point file. -/
structure DataSample where
  time : ℚ
  depth : ℚ
  load : ℚ
deriving DecidableEq

/-- Helper for `pySplit`: splits a character list on whitespace, dropping
empty chunks, with `cur` the (reversed) chunk currently being read. -/
def splitWSAux : List Char → List Char → List (List Char)
  | [], cur => if cur = [] then [] else [cur.reverse]
  | c :: cs, cur =>
    if c.isWhitespace then
      if cur = [] then splitWSAux cs []
      else cur.reverse :: splitWSAux cs []
    else splitWSAux cs (c :: cur)

/-- Python's `str.split()` with no argument: split on runs of whitespace,
discarding empty fields. -/
def pySplit (s : String) : List String :=
  (splitWSAux s.toList []).map (fun l => String.mk l)

/-- Python's `str.strip()`: remove leading and trailing whitespace. -/
def pyStrip (s : String) : String :=
  String.mk (((s.toList.dropWhile Char.isWhitespace).reverse.dropWhile
      Char.isWhitespace).reverse)

/-- Value of a list of decimal digit characters. -/
def digitsVal (ds : List Char) : ℕ :=
  ds.foldl (fun a c => a * 10 + (c.toNat - 48)) 0

/-- Reads an optional leading sign; returns whether it was `-` and the
remaining characters. -/
def readSign : List Char → Bool × List Char
  | '+' :: rest => (false, rest)
  | '-' :: rest => (true, rest)
  | cs => (false, cs)

/-- Reads the mantissa of a decimal literal: digits with an optional single
decimal point, at least one digit in total.  Returns its value and the
remaining characters. -/
def readMantissa (cs : List Char) : Option (ℚ × List Char) :=
  let ip := cs.takeWhile Char.isDigit
  let cs1 := cs.dropWhile Char.isDigit
  match cs1 with
  | '.' :: rest =>
    let fp := rest.takeWhile Char.isDigit
    let cs2 := rest.dropWhile Char.isDigit
    if ip = [] ∧ fp = [] then none
    else some ((digitsVal ip : ℚ) + (digitsVal fp : ℚ) / 10 ^ fp.length, cs2)
  | _ => if ip = [] then none else some ((digitsVal ip : ℚ), cs1)

/-- Reads an optional exponent suffix (`e`/`E`, optional sign, digits);
succeeds on no remaining input with exponent `0`. -/
def readExponent : List Char → Option ℤ
  | [] => some 0
  | c :: rest =>
    if c = 'e' ∨ c = 'E' then
      let (neg, rest1) := readSign rest
      let ds := rest1.takeWhile Char.isDigit
      let rest2 := rest1.dropWhile Char.isDigit
      if ds = [] ∨ rest2 ≠ [] then none
      else some (if neg then -(digitsVal ds : ℤ) else (digitsVal ds : ℤ))
    else none

/-- Python's `float()` applied to a whitespace-free token, restricted to
plain decimal literals with an optional sign, decimal point and exponent
(the forms occurring in these data files); a token that is not such a
literal fails, which in the code raises the `ValueError` the parsers catch. -/
def pyFloat (s : String) : Option ℚ :=
  let (neg, cs) := readSign s.toList
  match readMantissa cs with
  | none => none
  | some (m, rest) =>
    match readExponent rest with
    | none => none
    | some e =>
      let v : ℚ := m * 10 ^ e
      some (if neg then -v else v)

/-- Outcome of handling one data line: skipped, a parsed value, or an
uncaught exception. -/
inductive LineOutcome (α : Type) where
  | skip
  | val (a : α)
  | fatal (e : PyErr)
deriving DecidableEq

/-- Handling of one candidate data line inside the loop of
`read_summary_file` (the branches after the index-based skips): blank-line
skips, whitespace split, the `len(fields) == 0` skip, then the `try` block
building `fields[0] fields[1] LC.txt` and converting `fields[7]`,
`fields[9]`, `fields[10]`, where a missing index raises an uncaught
`IndexError` and a failed conversion raises the `ValueError` that the
`except` clause turns into a skip. -/
def parse_data_line (line : String) : LineOutcome DataLine :=
  if line = "" ∨ line = "\r" then .skip
  else
    let fields := pySplit line
    if fields.length = 0 then .skip
    else if fields.length < 2 then .fatal .indexError
    else
      let fname := fields.getD 0 "" ++ " " ++ fields.getD 1 "" ++ " LC.txt"
      if fields.length < 8 then .fatal .indexError
      else
        match pyFloat (fields.getD 7 "") with
        | none => .skip
        | some depth =>
          if fields.length < 10 then .fatal .indexError
          else
            match pyFloat (fields.getD 9 "") with
            | none => .skip
            | some stiffness =>
              if fields.length < 11 then .fatal .indexError
              else
                match pyFloat (fields.getD 10 "") with
                | none => .skip
                | some hardness =>
                  .val ⟨fname, depth, stiffness, hardness, pyStrip line⟩

/-- The enumerated loop of `read_summary_file`: `i` is the 0-based line
index, `header` the header captured so far, `acc` the records parsed so
far.  Index 0 is skipped, index 2 is captured (stripped) as the header, and
every other line goes through `parse_data_line`. -/
def summary_loop (i : ℕ) (header : Option String) (acc : List DataLine) :
    List String → Except PyErr (Option String × List DataLine)
  | [] => .ok (header, acc)
  | line :: rest =>
    if i = 0 then summary_loop (i + 1) header acc rest
    else if i = 2 then summary_loop (i + 1) (some (pyStrip line)) acc rest
    else
      match parse_data_line line with
      | .skip => summary_loop (i + 1) header acc rest
      | .fatal e => .error e
      | .val r => summary_loop (i + 1) header (acc ++ [r]) rest

/-- `read_summary_file` from `process.py`, on the file's list of lines.
If the loop never reached index 2 the `return (header, data)` statement
reads the unassigned local `header`, an uncaught `UnboundLocalError`. -/
def read_summary_file (lines : List String) :
    Except PyErr (String × List DataLine) :=
  match summary_loop 0 none [] lines with
  | .error e => .error e
  | .ok (none, _) => .error .unboundLocal
  | .ok (some h, data) => .ok (h, data)

/-- `write_summary_file` from `process.py`, as the list of lines of the
file it creates: a count line, a blank line (from the `"...\n\n"` write),
the header line, then each point's verbatim stored line. -/
def write_summary_file (points : List DataLine) (header : String) :
    List String :=
  ("Number of Data Points = " ++ toString points.length) :: "" :: header ::
    points.map (fun p => p.line)

/-- Handling of one candidate data line inside the loop of
`read_datapoint_file` (after the first-four-lines skip): blank-line skips,
whitespace split, then conversion of `fields[0]`, `fields[1]`, `fields[2]`.
There is no `len(fields)` guard in this loop, so a whitespace-only or
too-short line raises an uncaught `IndexError`. -/
def parse_sample_line (line : String) : LineOutcome DataSample :=
  if line = "" ∨ line = "\r" then .skip
  else
    let fields := pySplit line
    if fields.length < 1 then .fatal .indexError
    else
      match pyFloat (fields.getD 0 "") with
      | none => .skip
      | some depth =>
        if fields.length < 2 then .fatal .indexError
        else
          match pyFloat (fields.getD 1 "") with
          | none => .skip
          | some load =>
            if fields.length < 3 then .fatal .indexError
            else
              match pyFloat (fields.getD 2 "") with
              | none => .skip
              | some time => .val ⟨time, depth, load⟩

/-- The enumerated loop of `read_datapoint_file`: the first four lines are
skipped, the rest go through `parse_sample_line`. -/
def datapoint_loop (i : ℕ) (acc : List DataSample) :
    List String → Except PyErr (List DataSample)
  | [] => .ok acc
  | line :: rest =>
    if i < 4 then datapoint_loop (i + 1) acc rest
    else
      match parse_sample_line line with
      | .skip => datapoint_loop (i + 1) acc rest
      | .fatal e => .error e
      | .val s => datapoint_loop (i + 1) (acc ++ [s]) rest

/-- `read_datapoint_file` from `process.py`, on the file's list of lines. -/
def read_datapoint_file (lines : List String) :
    Except PyErr (List DataSample) :=
  datapoint_loop 0 [] lines

/-- `calculate_stats` from `process.py`.  `sqrt` stands for `math.sqrt`
(an external call; every use below applies it to the nonnegative variance).
An empty list makes `sum(samples)/len(samples)` raise `ZeroDivisionError`,
and under `samplevar` a singleton list makes `variance/size` divide by
`size = 0`, again `ZeroDivisionError`. -/
def calculate_stats (sqrt : ℚ → ℚ) (samples : List ℚ)
    (samplevar : Bool := true) : Except PyErr (ℚ × ℚ) :=
  if samples.length = 0 then .error .zeroDivision
  else
    let mean : ℚ := samples.sum / samples.length
    let variance : ℚ := (samples.map (fun x => (x - mean) ^ 2)).sum
    let size : ℤ := if samplevar then (samples.length : ℤ) - 1
      else (samples.length : ℤ)
    if size = 0 then .error .zeroDivision
    else .ok (mean, sqrt (variance / (size : ℚ)))

/-- The outlier test applied to one record in the loop of `process_file`:
any of the three absolute Z-scores at or above the threshold rejects the
point (the three `if` statements with `continue`). -/
def is_outlier (dm dsd sm ssd hm hsd zthresh : ℚ) (x : DataLine) : Bool :=
  let depth_score := (x.depth - dm) / dsd
  let stiff_score := (x.stiff - sm) / ssd
  let hard_score := (x.hard - hm) / hsd
  decide (zthresh ≤ |depth_score|) || decide (zthresh ≤ |stiff_score|) ||
    decide (zthresh ≤ |hard_score|)

/-- The partitioning loop of `process_file` (lines building `valid_points`
and `outliers`).  All three scores are computed for every record before any
test, so a zero standard deviation raises `ZeroDivisionError` as soon as
one record is processed. -/
def classify_points (dm dsd sm ssd hm hsd zthresh : ℚ) :
    List DataLine → Except PyErr (List DataLine × List DataLine)
  | [] => .ok ([], [])
  | x :: rest =>
    if dsd = 0 ∨ ssd = 0 ∨ hsd = 0 then .error .zeroDivision
    else
      match classify_points dm dsd sm ssd hm hsd zthresh rest with
      | .error e => .error e
      | .ok (valid_points, outliers) =>
        if is_outlier dm dsd sm ssd hm hsd zthresh x then
          .ok (valid_points, x :: outliers)
        else
          .ok (x :: valid_points, outliers)

/-- The statistics-plus-classification stage of `process_file`: the three
`calculate_stats` calls (sample variance, over the full parsed record set)
followed by the partitioning loop. -/
def run_classify (sqrt : ℚ → ℚ) (data : List DataLine) (zthresh : ℚ) :
    Except PyErr (List DataLine × List DataLine) :=
  match calculate_stats sqrt (data.map (fun x => x.depth)) true with
  | .error e => .error e
  | .ok (depth_mean, depth_sdev) =>
    match calculate_stats sqrt (data.map (fun x => x.stiff)) true with
    | .error e => .error e
    | .ok (stiff_mean, stiff_sdev) =>
      match calculate_stats sqrt (data.map (fun x => x.hard)) true with
      | .error e => .error e
      | .ok (hard_mean, hard_sdev) =>
        classify_points depth_mean depth_sdev stiff_mean stiff_sdev
          hard_mean hard_sdev zthresh data

/-- The best-point loop of `process_file`: `best_score` starts at
`float('inf')` (modelled by `⊤` in `WithTop ℚ`), `best_point` at `None`,
and a point replaces the current best exactly when its score is strictly
smaller. -/
def select_loop (stiff_mean : ℚ) :
    List DataLine → WithTop ℚ → Option DataLine → Option DataLine
  | [], _, best_point => best_point
  | p :: rest, best_score, best_point =>
    let score : ℚ := |p.stiff - stiff_mean|
    if (score : WithTop ℚ) < best_score then
      select_loop stiff_mean rest (score : WithTop ℚ) (some p)
    else select_loop stiff_mean rest best_score best_point

/-- The best point found by the loop of `process_file`, if any. -/
def find_best_point (stiff_mean : ℚ) (valid_points : List DataLine) :
    Option DataLine :=
  select_loop stiff_mean valid_points ⊤ none

/-- The representative-selection step of `process_file`: after the loop the
code evaluates `best_point.fname`; when no point was selected `best_point`
is still `None` and the attribute access raises an uncaught
`AttributeError`. -/
def select_best (stiff_mean : ℚ) (valid_points : List DataLine) :
    Except PyErr DataLine :=
  match find_best_point stiff_mean valid_points with
  | none => .error .attributeError
  | some p => .ok p

/-- `basename.split()[0]` from `process_file`; an empty split result makes
the subscript raise `IndexError`. -/
def firstToken (s : String) : Option String :=
  (pySplit s).head?

/-- Truthiness of an optional float argument, as tested by `if args.sdev:`
and `if args.pval:` — `None` and `0.0` are both falsy. -/
def truthy (o : Option ℚ) : Bool :=
  match o with
  | none => false
  | some v => decide (v ≠ 0)

/-- The threshold-derivation logic of `main` in `process.py`: rejects both
options together, takes a truthy `--sdev` value directly after a sign
check, derives a threshold from a truthy `--pval` value via
`stats.norm.ppf` (modelled by the parameter `ppf`), and otherwise falls
back to `DEFAULT_Z_THRESH = 3`. -/
def compute_zthresh (ppf : ℚ → ℚ) (pval sdev : Option ℚ) :
    Except PyErr ℚ :=
  if truthy pval && truthy sdev then .error .usageExit
  else if truthy sdev then
    let z := sdev.getD 0
    if z < 0 then .error .usageExit else .ok z
  else if truthy pval then
    let p := pval.getD 0
    if p < 0 ∨ 1 < p then .error .usageExit
    else .ok (ppf (p + (1 - p) / 2))
  else .ok 3

/-- `process_file` from `process.py`, up to and including the selection of
the best point (the subsequent read of the best point's data file needs
that selection to have succeeded).  The summary file is given as its list
of lines and its location as the `outdir`/`basename` pair produced by
`os.path.split(os.path.abspath(filename))`.  The first component of the
result lists the files written (path and content lines, in write order);
the second is the outcome of the run. -/
def process_file (sqrt : ℚ → ℚ) (lines : List String)
    (outdir basename : String) (zthresh : ℚ) (write_out : Bool) :
    List (String × List String) × Except PyErr DataLine :=
  match read_summary_file lines with
  | .error e => ([], .error e)
  | .ok (header, data) =>
    match calculate_stats sqrt (data.map (fun x => x.depth)) true with
    | .error e => ([], .error e)
    | .ok (depth_mean, depth_sdev) =>
      match calculate_stats sqrt (data.map (fun x => x.stiff)) true with
      | .error e => ([], .error e)
      | .ok (stiff_mean, stiff_sdev) =>
        match calculate_stats sqrt (data.map (fun x => x.hard)) true with
        | .error e => ([], .error e)
        | .ok (hard_mean, hard_sdev) =>
          match classify_points depth_mean depth_sdev stiff_mean
              stiff_sdev hard_mean hard_sdev zthresh data with
          | .error e => ([], .error e)
          | .ok (valid_points, outliers) =>
            if write_out then
              match firstToken basename with
              | none => ([], .error .indexError)
              | some data_name =>
                let clean_name :=
                  outdir ++ "/" ++ data_name ++ "_clean.txt"
                let outlier_name :=
                  outdir ++ "/" ++ data_name ++ "_outliers.txt"
                ([(clean_name, write_summary_file valid_points header),
                  (outlier_name, write_summary_file outliers header)],
                 select_best stiff_mean valid_points)
            else ([], select_best stiff_mean valid_points)

/-- The record a data line of a summary file contributes, if any: `some r`
when `parse_data_line` yields a record, `none` when the line is skipped
(blank, empty split, or a designated token failing numeric conversion). -/
def record_of_line (l : String) : Option DataLine :=
  match parse_data_line l with
  | .val r => some r
  | _ => none

/-- The sample a data line of a data-point file contributes, if any. -/
def sample_of_line (l : String) : Option DataSample :=
  match parse_sample_line l with
  | .val s => some s
  | _ => none

/-- A concrete record, as parsed from the summary line stored in its
`line` field (columns 7, 9, 10 hold the depth, stiffness, hardness). -/
def lineA : DataLine :=
  ⟨"A 1 LC.txt", 10, 20, 30, "A 1 a a a a a 10 a 20 30"⟩

/-- A second concrete record, likewise matching its own `line` field. -/
def lineB : DataLine :=
  ⟨"B 2 LC.txt", 11, 25, 33, "B 2 a a a a a 11 a 25 33"⟩

end Process

namespace Process

theorem classify_points_eq_filter (dm dsd sm ssd hm hsd zthresh : ℚ)
    (data valid outliers : List DataLine)
    (h : classify_points dm dsd sm ssd hm hsd zthresh data =
      .ok (valid, outliers)) :
    valid = data.filter (fun x => ! is_outlier dm dsd sm ssd hm hsd zthresh x) ∧
    outliers = data.filter (fun x => is_outlier dm dsd sm ssd hm hsd zthresh x) := by
  induction data generalizing valid outliers with
  | nil =>
    simp only [classify_points, Except.ok.injEq, Prod.mk.injEq] at h
    simp [← h.1, ← h.2]
  | cons x rest ih =>
    rw [classify_points] at h
    by_cases hz : dsd = 0 ∨ ssd = 0 ∨ hsd = 0
    · simp [hz] at h
    · rw [if_neg hz] at h
      cases hc : classify_points dm dsd sm ssd hm hsd zthresh rest with
      | error e => rw [hc] at h; exact absurd h (by simp)
      | ok vo =>
        obtain ⟨v, o⟩ := vo
        obtain ⟨hv, ho⟩ := ih v o hc
        rw [hc] at h
        simp only [] at h
        by_cases hout : is_outlier dm dsd sm ssd hm hsd zthresh x = true
        · rw [if_pos hout] at h
          simp only [Except.ok.injEq, Prod.mk.injEq] at h
          subst hv ho
          simp [← h.1, ← h.2, List.filter_cons, hout]
        · rw [if_neg hout] at h
          simp only [Except.ok.injEq, Prod.mk.injEq] at h
          subst hv ho
          simp [← h.1, ← h.2, List.filter_cons, hout]

theorem run_classify_ok_elim (sqrt : ℚ → ℚ) (data : List DataLine)
    (zthresh : ℚ) (valid outliers : List DataLine)
    (h : run_classify sqrt data zthresh = .ok (valid, outliers)) :
    ∃ dm dsd sm ssd hm hsd,
      calculate_stats sqrt (data.map (fun x => x.depth)) true = .ok (dm, dsd) ∧
      calculate_stats sqrt (data.map (fun x => x.stiff)) true = .ok (sm, ssd) ∧
      calculate_stats sqrt (data.map (fun x => x.hard)) true = .ok (hm, hsd) ∧
      classify_points dm dsd sm ssd hm hsd zthresh data =
        .ok (valid, outliers) := by
  unfold run_classify at h
  cases h1 : calculate_stats sqrt (data.map (fun x => x.depth)) true with
  | error e => rw [h1] at h; exact absurd h (by simp)
  | ok p1 =>
    obtain ⟨dm, dsd⟩ := p1
    rw [h1] at h
    cases h2 : calculate_stats sqrt (data.map (fun x => x.stiff)) true with
    | error e => rw [h2] at h; exact absurd h (by simp)
    | ok p2 =>
      obtain ⟨sm, ssd⟩ := p2
      rw [h2] at h
      cases h3 : calculate_stats sqrt (data.map (fun x => x.hard)) true with
      | error e => rw [h3] at h; exact absurd h (by simp)
      | ok p3 =>
        obtain ⟨hm, hsd⟩ := p3
        rw [h3] at h
        exact ⟨dm, dsd, sm, ssd, hm, hsd, rfl, rfl, rfl, h⟩

/-- C1: a record ends up in the outlier partition of `process_file`'s
classification stage if and only if it is one of the parsed records and at
least one of its three absolute Z-scores — each taken against that field's
mean and sample standard deviation as computed by `calculate_stats` over
the full parsed record set — is at least the threshold. -/
theorem classify_outlier_iff (sqrt : ℚ → ℚ) (data : List DataLine)
    (zthresh dm dsd sm ssd hm hsd : ℚ) (valid outliers : List DataLine)
    (x : DataLine)
    (hd : calculate_stats sqrt (data.map (fun r => r.depth)) true = .ok (dm, dsd))
    (hs : calculate_stats sqrt (data.map (fun r => r.stiff)) true = .ok (sm, ssd))
    (hh : calculate_stats sqrt (data.map (fun r => r.hard)) true = .ok (hm, hsd))
    (hrun : run_classify sqrt data zthresh = .ok (valid, outliers)) :
    x ∈ outliers ↔ x ∈ data ∧
      (zthresh ≤ |(x.depth - dm) / dsd| ∨ zthresh ≤ |(x.stiff - sm) / ssd| ∨
        zthresh ≤ |(x.hard - hm) / hsd|) := by
  rw [run_classify, hd, hs, hh] at hrun
  obtain ⟨-, ho⟩ :=
    classify_points_eq_filter dm dsd sm ssd hm hsd zthresh data valid outliers hrun
  subst ho
  simp [List.mem_filter, is_outlier, or_assoc]

/-- C1 witness: with two concrete records, threshold 3 and `sqrt` taken as
the identity, neither record trips any Z-score; the iff is instantiated at
the first record. -/
theorem classify_outlier_iff_witness :
    lineA ∈ ([] : List DataLine) ↔ lineA ∈ [lineA, lineB] ∧
      (3 ≤ |(lineA.depth - 21 / 2) / (1 / 2)| ∨
        3 ≤ |(lineA.stiff - 45 / 2) / (25 / 2)| ∨
        3 ≤ |(lineA.hard - 63 / 2) / (9 / 2)|) :=
  classify_outlier_iff (fun q => q) [lineA, lineB] 3 (21 / 2) (1 / 2)
    (45 / 2) (25 / 2) (63 / 2) (9 / 2) [lineA, lineB] [] lineA
    (by simp [calculate_stats, lineA, lineB]; norm_num)
    (by simp [calculate_stats, lineA, lineB]; norm_num)
    (by simp [calculate_stats, lineA, lineB]; norm_num)
    (by norm_num [run_classify, calculate_stats, classify_points, is_outlier,
      lineA, lineB, abs_of_nonneg, abs_of_nonpos])

/-- C2 counterexample: the claim quantifies over every non-empty record
sequence, but on a single parsed record the code raises ZeroDivisionError
inside `calculate_stats` (sample variance divides by `len - 1 = 0`), so no
partition is returned at all. -/
theorem classify_partition_cex :
    run_classify (fun q => q) [lineA] 3 = .error .zeroDivision := by
  simp [run_classify, calculate_stats]

/-- C2 (amended): whenever the classification stage of `process_file`
returns at all (which requires at least two records and three nonzero
sample standard deviations; otherwise it raises ZeroDivisionError), the
valid and outlier partitions are each subsequences of the input (hence in
original parse order), their multiset union is exactly the input record
set, and they are disjoint. -/
theorem classify_partition (sqrt : ℚ → ℚ) (data : List DataLine)
    (zthresh : ℚ) (valid outliers : List DataLine) (_hne : data ≠ [])
    (hrun : run_classify sqrt data zthresh = .ok (valid, outliers)) :
    valid.Sublist data ∧ outliers.Sublist data ∧
      (valid ++ outliers).Perm data ∧ ∀ x ∈ valid, x ∉ outliers := by
  obtain ⟨dm, dsd, sm, ssd, hm, hsd, -, -, -, hcl⟩ :=
    run_classify_ok_elim sqrt data zthresh valid outliers hrun
  obtain ⟨hv, ho⟩ :=
    classify_points_eq_filter dm dsd sm ssd hm hsd zthresh data valid outliers hcl
  subst hv ho
  refine ⟨List.filter_sublist _, List.filter_sublist _, ?_, ?_⟩
  · exact (List.perm_append_comm).trans
      (List.filter_append_perm (is_outlier dm dsd sm ssd hm hsd zthresh) data)
  · intro x hxv hxo
    rw [List.mem_filter] at hxv hxo
    simp [hxo.2] at hxv

/-- C2 witness: the amended partition property instantiated on two
concrete records with threshold 3 (both land in the valid partition). -/
theorem classify_partition_witness :
    List.Sublist [lineA, lineB] [lineA, lineB] ∧
      List.Sublist ([] : List DataLine) [lineA, lineB] ∧
      ([lineA, lineB] ++ ([] : List DataLine)).Perm [lineA, lineB] ∧
      ∀ x ∈ [lineA, lineB], x ∉ ([] : List DataLine) :=
  classify_partition (fun q => q) [lineA, lineB] 3 [lineA, lineB] []
    (by simp)
    (by norm_num [run_classify, calculate_stats, classify_points, is_outlier,
      lineA, lineB, abs_of_nonneg, abs_of_nonpos])

theorem select_best_nil (stiff_mean : ℚ) :
    select_best stiff_mean [] = .error .attributeError := rfl

/-- C4 counterexample: on an empty valid-record set the selection step of
`process_file` fails by crashing — `best_point` is still `None` and
`best_point.fname` raises `AttributeError` — which is not the structured
`EmptyInputError` the claim promises. -/
theorem select_best_empty_cex :
    select_best 0 [] = .error .attributeError ∧
      PyErr.attributeError ≠ PyErr.emptyInput := ⟨rfl, by simp⟩

/-- C4 (amended): whenever classification leaves the valid-record set
empty, representative selection fails — so it never returns a
representative point — but the failure is an uncaught `AttributeError`
crash (accessing `fname` on `None`), not a structured `EmptyInputError`. -/
theorem select_best_empty_fails (stiff_mean : ℚ) :
    select_best stiff_mean [] = .error .attributeError :=
  select_best_nil stiff_mean

/-- C5 counterexample: an explicit Z value of `0` is non-negative, but
`if args.sdev:` treats `0.0` as falsy, so the code silently falls through
to the default threshold `3` instead of using `0`. -/
theorem zthresh_zero_cex :
    compute_zthresh id none (some 0) = .ok 3 ∧ (3 : ℚ) ≠ 0 := by
  constructor
  · simp [compute_zthresh, truthy]
  · norm_num

/-- C5 (amended): an explicit *positive* Z value supplied alone is used
exactly as the threshold; with neither an explicit Z value nor a p-value
the threshold is exactly 3 (an explicit Z of `0` also falls through to 3,
because the code tests the option by Python truthiness). -/
theorem zthresh_explicit_or_default (ppf : ℚ → ℚ) (z : ℚ) (hz : 0 < z) :
    compute_zthresh ppf none (some z) = .ok z ∧
      compute_zthresh ppf none none = .ok 3 := by
  constructor
  · simp [compute_zthresh, truthy, hz.ne', not_lt.mpr hz.le]
  · simp [compute_zthresh, truthy]

/-- C5 witness: the amended threshold rule at the explicit value 5. -/
theorem zthresh_explicit_or_default_witness :
    compute_zthresh id none (some 5) = .ok 5 ∧
      compute_zthresh id none none = .ok 3 :=
  zthresh_explicit_or_default id 5 (by norm_num)

/-- C8: `calculate_stats` fails with an error (`ZeroDivisionError`, never
a silent NaN or infinity) on fewer than 2 samples in sample-variance mode
and on fewer than 1 sample otherwise; in particular it fails on `[5.0]`
with sample variance. -/
theorem calculate_stats_fails_small (sqrt : ℚ → ℚ) (samples : List ℚ) :
    (samples.length < 2 → calculate_stats sqrt samples true =
      .error .zeroDivision) ∧
    (samples.length < 1 → calculate_stats sqrt samples false =
      .error .zeroDivision) ∧
    calculate_stats sqrt [(5 : ℚ)] true = .error .zeroDivision := by
  refine ⟨?_, ?_, by simp [calculate_stats]⟩
  · intro h
    match samples, h with
    | [], _ => simp [calculate_stats]
    | [a], _ => simp [calculate_stats]
  · intro h
    match samples, h with
    | [], _ => simp [calculate_stats]

/-- C8 witness: the failure cases instantiated at `[5.0]` (sample
variance) and at the empty list (population variance). -/
theorem calculate_stats_fails_small_witness :
    calculate_stats id [(5 : ℚ)] true = .error .zeroDivision ∧
    calculate_stats id ([] : List ℚ) false = .error .zeroDivision :=
  ⟨(calculate_stats_fails_small id [(5 : ℚ)]).1 (by simp),
   (calculate_stats_fails_small id ([] : List ℚ)).2.1 (by simp)⟩

theorem select_loop_none (stiff_mean : ℚ) :
    ∀ (l : List DataLine) (s : WithTop ℚ) (b : Option DataLine),
      (∀ x ∈ l, ¬ ((|x.stiff - stiff_mean| : ℚ) : WithTop ℚ) < s) →
      select_loop stiff_mean l s b = b := by
  intro l
  induction l with
  | nil => intro s b _; rfl
  | cons p rest ih =>
    intro s b h
    simp only [select_loop]
    rw [if_neg (h p (by simp))]
    exact ih s b fun x hx => h x (by simp [hx])

theorem select_loop_found (stiff_mean : ℚ) :
    ∀ (l : List DataLine) (s : WithTop ℚ) (b : Option DataLine),
      (∃ x ∈ l, ((|x.stiff - stiff_mean| : ℚ) : WithTop ℚ) < s) →
      ∃ l1 r l2, l = l1 ++ r :: l2 ∧
        select_loop stiff_mean l s b = some r ∧
        ((|r.stiff - stiff_mean| : ℚ) : WithTop ℚ) < s ∧
        (∀ x ∈ l1, |r.stiff - stiff_mean| < |x.stiff - stiff_mean|) ∧
        (∀ x ∈ l, |r.stiff - stiff_mean| ≤ |x.stiff - stiff_mean|) := by
  intro l
  induction l with
  | nil => rintro s b ⟨x, hx, -⟩; exact absurd hx (by simp)
  | cons p rest ih =>
    intro s b hex
    by_cases hps : ((|p.stiff - stiff_mean| : ℚ) : WithTop ℚ) < s
    · by_cases hrest : ∃ x ∈ rest, ((|x.stiff - stiff_mean| : ℚ) : WithTop ℚ) <
        ((|p.stiff - stiff_mean| : ℚ) : WithTop ℚ)
      · obtain ⟨l1, r, l2, heq, hsel, hlt, hfirst, hmin⟩ := ih _ (some p) hrest
        refine ⟨p :: l1, r, l2, by rw [heq]; rfl, ?_, lt_trans hlt hps, ?_, ?_⟩
        · simp only [select_loop]; rw [if_pos hps]; exact hsel
        · intro x hx
          rcases List.mem_cons.mp hx with rfl | hx
          · exact_mod_cast hlt
          · exact hfirst x hx
        · intro x hx
          rcases List.mem_cons.mp hx with rfl | hx
          · exact le_of_lt (by exact_mod_cast hlt)
          · exact hmin x hx
      · push_neg at hrest
        refine ⟨[], p, rest, rfl, ?_, hps, by simp, ?_⟩
        · simp only [select_loop]; rw [if_pos hps]
          exact select_loop_none stiff_mean rest _ (some p)
            fun x hx => not_lt.mpr (hrest x hx)
        · intro x hx
          rcases List.mem_cons.mp hx with rfl | hx
          · exact le_refl _
          · exact_mod_cast hrest x hx
    · have hex2 : ∃ x ∈ rest, ((|x.stiff - stiff_mean| : ℚ) : WithTop ℚ) < s := by
        obtain ⟨x, hx, hxs⟩ := hex
        rcases List.mem_cons.mp hx with rfl | hx
        · exact absurd hxs hps
        · exact ⟨x, hx, hxs⟩
      obtain ⟨l1, r, l2, heq, hsel, hlt, hfirst, hmin⟩ := ih s b hex2
      have hsp : s ≤ ((|p.stiff - stiff_mean| : ℚ) : WithTop ℚ) := not_lt.mp hps
      have hrp : |r.stiff - stiff_mean| < |p.stiff - stiff_mean| := by
        have h2 : ((|r.stiff - stiff_mean| : ℚ) : WithTop ℚ) <
            ((|p.stiff - stiff_mean| : ℚ) : WithTop ℚ) := lt_of_lt_of_le hlt hsp
        exact_mod_cast h2
      refine ⟨p :: l1, r, l2, by rw [heq]; rfl, ?_, hlt, ?_, ?_⟩
      · simp only [select_loop]; rw [if_neg hps]; exact hsel
      · intro x hx
        rcases List.mem_cons.mp hx with rfl | hx
        · exact hrp
        · exact hfirst x hx
      · intro x hx
        rcases List.mem_cons.mp hx with rfl | hx
        · exact le_of_lt hrp
        · exact hmin x hx

/-- C6: on a non-empty valid-record list, the best-point loop of
`process_file` returns a record whose score `|stiffness − stiff_mean|` is
minimal over the list, and every record strictly before it in parse order
has a strictly larger score (so ties go to the first-encountered record). -/
theorem find_best_point_first_argmin (stiff_mean : ℚ)
    (valid : List DataLine) (hne : valid ≠ []) :
    ∃ l1 r l2, valid = l1 ++ r :: l2 ∧
      find_best_point stiff_mean valid = some r ∧
      (∀ x ∈ l1, |r.stiff - stiff_mean| < |x.stiff - stiff_mean|) ∧
      (∀ x ∈ valid, |r.stiff - stiff_mean| ≤ |x.stiff - stiff_mean|) := by
  obtain ⟨p, rest, rfl⟩ := List.exists_cons_of_ne_nil hne
  obtain ⟨l1, r, l2, heq, hsel, -, hfirst, hmin⟩ :=
    select_loop_found stiff_mean (p :: rest) ⊤ none
      ⟨p, by simp, WithTop.coe_lt_top _⟩
  exact ⟨l1, r, l2, heq, hsel, hfirst, hmin⟩

/-- C6 witness: with reference mean 20 the first record (score 0) is
selected from the two concrete records. -/
theorem find_best_point_first_argmin_witness :
    ∃ l1 r l2, [lineA, lineB] = l1 ++ r :: l2 ∧
      find_best_point 20 [lineA, lineB] = some r ∧
      (∀ x ∈ l1, |r.stiff - 20| < |x.stiff - 20|) ∧
      (∀ x ∈ [lineA, lineB], |r.stiff - 20| ≤ |x.stiff - 20|) :=
  find_best_point_first_argmin 20 [lineA, lineB] (by simp)

theorem summary_loop_high (lines : List String) :
    ∀ (i : ℕ) (header : Option String) (acc : List DataLine), 3 ≤ i →
      (∀ l ∈ lines, ∀ e, parse_data_line l ≠ .fatal e) →
      summary_loop i header acc lines =
        .ok (header, acc ++ lines.filterMap record_of_line) := by
  induction lines with
  | nil => intro i header acc _ _; simp [summary_loop]
  | cons l rest ih =>
    intro i header acc hi hok
    rw [summary_loop]
    rw [if_neg (by omega : ¬ i = 0), if_neg (by omega : ¬ i = 2)]
    split
    · rename_i hp
      rw [ih (i + 1) header acc (by omega) (fun x hx => hok x (by simp [hx]))]
      simp [record_of_line, hp]
    · rename_i e hp
      exact absurd hp (hok l (by simp) e)
    · rename_i r hp
      rw [ih (i + 1) header (acc ++ [r]) (by omega)
        (fun x hx => hok x (by simp [hx]))]
      simp [record_of_line, hp]

theorem datapoint_loop_high (lines : List String) :
    ∀ (i : ℕ) (acc : List DataSample), 4 ≤ i →
      (∀ l ∈ lines, ∀ e, parse_sample_line l ≠ .fatal e) →
      datapoint_loop i acc lines =
        .ok (acc ++ lines.filterMap sample_of_line) := by
  induction lines with
  | nil => intro i acc _ _; simp [datapoint_loop]
  | cons l rest ih =>
    intro i acc hi hok
    rw [datapoint_loop]
    rw [if_neg (by omega : ¬ i < 4)]
    split
    · rename_i hp
      rw [ih (i + 1) acc (by omega) (fun x hx => hok x (by simp [hx]))]
      simp [sample_of_line, hp]
    · rename_i e hp
      exact absurd hp (hok l (by simp) e)
    · rename_i s hp
      rw [ih (i + 1) (acc ++ [s]) (by omega)
        (fun x hx => hok x (by simp [hx]))]
      simp [sample_of_line, hp]

/-- C3 counterexample: a summary data line of three whitespace-separated
tokens has fewer tokens than the designated column indices require; the
claim says such a line is silently skipped, but the code raises an
uncaught `IndexError` (`fields[7]`), aborting the parse instead of
returning the successfully parsed lines. -/
theorem parser_leniency_cex :
    read_summary_file ["Number of Data Points = 1", "", "HEADER", "A B C"] =
      .error .indexError := by
  simp [read_summary_file, summary_loop, parse_data_line, pySplit, splitWSAux]

/-- C3 (amended): a line whose designated tokens are present but fail
numeric conversion is silently skipped, and the returned sequence holds
exactly the successfully parsed lines in file order; but a line with at
least one token and fewer tokens than the designated indices is not
skipped — it raises an uncaught `IndexError` (both parsers catch only
`ValueError`).  Stated for files in which no data line is of the fatal
kind: line 1 (skipped) and line 3 (header) are fixed, every other summary
line and every data-point line after the four-line preamble contributes
exactly its parse result, in order. -/
theorem parser_leniency (l0 l1 l2 : String) (rest : List String)
    (m0 m1 m2 m3 : String) (mrest : List String)
    (hsum : ∀ l ∈ l1 :: rest, ∀ e, parse_data_line l ≠ .fatal e)
    (hdat : ∀ l ∈ mrest, ∀ e, parse_sample_line l ≠ .fatal e) :
    read_summary_file (l0 :: l1 :: l2 :: rest) =
      .ok (pyStrip l2, (l1 :: rest).filterMap record_of_line) ∧
    read_datapoint_file (m0 :: m1 :: m2 :: m3 :: mrest) =
      .ok (mrest.filterMap sample_of_line) := by
  constructor
  · cases hp : parse_data_line l1 with
    | fatal e => exact absurd hp (hsum l1 (by simp) e)
    | skip =>
      rw [read_summary_file]
      rw [show summary_loop 0 none [] (l0 :: l1 :: l2 :: rest) =
          summary_loop 3 (some (pyStrip l2)) [] rest from by
        simp [summary_loop, hp]]
      rw [summary_loop_high rest 3 (some (pyStrip l2)) [] (by omega)
        (fun x hx => hsum x (by simp [hx]))]
      simp [record_of_line, hp]
    | val r =>
      rw [read_summary_file]
      rw [show summary_loop 0 none [] (l0 :: l1 :: l2 :: rest) =
          summary_loop 3 (some (pyStrip l2)) [r] rest from by
        simp [summary_loop, hp]]
      rw [summary_loop_high rest 3 (some (pyStrip l2)) [r] (by omega)
        (fun x hx => hsum x (by simp [hx]))]
      simp [record_of_line, hp]
  · rw [read_datapoint_file]
    rw [show datapoint_loop 0 [] (m0 :: m1 :: m2 :: m3 :: mrest) =
        datapoint_loop 4 [] mrest from by simp [datapoint_loop]]
    rw [datapoint_loop_high mrest 4 [] (by omega) hdat]
    simp

/-- C3 witness: a concrete summary file whose second data line has a
non-numeric token in the depth column (skipped, not fatal) and a concrete
data-point file with one non-numeric line (also skipped). -/
theorem parser_leniency_witness :
    read_summary_file ["Number of Data Points = 2", "", "HEADER",
        "A 1 a a a a a 10 a 20 30", "B 2 a a a a a bad a 25 33"] =
      .ok (pyStrip "HEADER",
        (("" : String) :: ["A 1 a a a a a 10 a 20 30",
          "B 2 a a a a a bad a 25 33"]).filterMap record_of_line) ∧
    read_datapoint_file ["h1", "h2", "h3", "h4", "1 2 3", "x 2 3"] =
      .ok (["1 2 3", "x 2 3"].filterMap sample_of_line) :=
  parser_leniency "Number of Data Points = 2" "" "HEADER"
    ["A 1 a a a a a 10 a 20 30", "B 2 a a a a a bad a 25 33"]
    "h1" "h2" "h3" "h4" ["1 2 3", "x 2 3"]
    (by
      intro l hl e
      simp only [List.mem_cons, List.not_mem_nil, or_false] at hl
      rcases hl with rfl | rfl | rfl <;>
        simp [parse_data_line, pySplit, splitWSAux, pyStrip, pyFloat,
          readSign, readMantissa, readExponent, digitsVal])
    (by
      intro l hl e
      simp only [List.mem_cons, List.not_mem_nil, or_false] at hl
      rcases hl with rfl | rfl <;>
        simp [parse_sample_line, pySplit, splitWSAux, pyFloat,
          readSign, readMantissa, readExponent, digitsVal])

theorem parse_data_line_val_line (l : String) (r : DataLine)
    (h : parse_data_line l = .val r) : r.line = pyStrip l := by
  unfold parse_data_line at h
  simp only [] at h
  repeat' split at h
  all_goals (cases h <;> rfl)

theorem roundtrip_lines (records : List DataLine)
    (hr : ∀ r ∈ records, pyStrip r.line = r.line ∧
      ∃ r2, parse_data_line r.line = .val r2) :
    ((records.map (fun r => r.line)).filterMap record_of_line).map
        (fun r => r.line) = records.map (fun r => r.line) := by
  induction records with
  | nil => simp
  | cons a t ih =>
    obtain ⟨ha1, r2, ha2⟩ := hr a (by simp)
    have hline : r2.line = pyStrip a.line :=
      parse_data_line_val_line a.line r2 ha2
    simp [record_of_line, ha2, hline, ha1, -List.filterMap_map,
      ih (fun r hrm => hr r (by simp [hrm]))]

/-- C7: writing a record list with `write_summary_file` and re-parsing the
result with `read_summary_file` returns the original header and a record
sequence with the same verbatim record lines in the same order — the
synthetic count line and blank preamble line are consumed by the parser's
index-based skips.  The hypotheses restrict records and header to the
shape the parser itself produces: stripped, free of line-break characters
(so that each stored line really is one line of the written file), and,
for records, a line that parses to a record. -/
theorem summary_roundtrip (records : List DataLine) (header : String)
    (hh1 : pyStrip header = header)
    (_hh2 : ∀ c ∈ header.toList, c ≠ '\n' ∧ c ≠ '\r')
    (hr : ∀ r ∈ records, pyStrip r.line = r.line ∧
      (∀ c ∈ r.line.toList, c ≠ '\n' ∧ c ≠ '\r') ∧
      ∃ r2, parse_data_line r.line = .val r2) :
    ∃ records2,
      read_summary_file (write_summary_file records header) =
        .ok (header, records2) ∧
      records2.map (fun r => r.line) = records.map (fun r => r.line) := by
  refine ⟨(records.map (fun r => r.line)).filterMap record_of_line, ?_, ?_⟩
  · rw [write_summary_file, read_summary_file]
    rw [show summary_loop 0 none []
        (("Number of Data Points = " ++ toString records.length) :: "" ::
          header :: records.map (fun r => r.line)) =
        summary_loop 3 (some (pyStrip header)) []
          (records.map (fun r => r.line)) from by
      simp [summary_loop, parse_data_line]]
    rw [summary_loop_high (records.map (fun r => r.line)) 3
      (some (pyStrip header)) [] (by omega)
      (fun l hl e => by
        obtain ⟨r, hrmem, rfl⟩ := List.mem_map.mp hl
        obtain ⟨-, -, r2, h2⟩ := hr r hrmem
        simp [h2])]
    simp [hh1]
  · exact roundtrip_lines records
      (fun r hrm => ⟨(hr r hrm).1, (hr r hrm).2.2⟩)

/-- C7 witness: the round trip instantiated on the two concrete records
(whose `line` fields are exactly their own summary lines) and the header
"HEADER". -/
theorem summary_roundtrip_witness :
    ∃ records2,
      read_summary_file (write_summary_file [lineA, lineB] "HEADER") =
        .ok ("HEADER", records2) ∧
      records2.map (fun r => r.line) = [lineA, lineB].map (fun r => r.line) :=
  summary_roundtrip [lineA, lineB] "HEADER"
    (by simp [pyStrip])
    (by intro c hc; simp at hc; rcases hc with rfl | rfl | rfl | rfl | rfl |
      rfl <;> simp)
    (by
      intro r hrm
      simp only [List.mem_cons, List.not_mem_nil, or_false] at hrm
      rcases hrm with rfl | rfl <;>
        refine ⟨by simp [lineA, lineB, pyStrip], ?_, ?_⟩ <;>
        simp [lineA, lineB, parse_data_line, pySplit, splitWSAux, pyStrip,
          pyFloat, readSign, readMantissa, readExponent, digitsVal])

theorem splitWSAux_no_ws : ∀ (l cur : List Char),
    (∀ c ∈ l, c.isWhitespace = false) → (cur ≠ [] ∨ l ≠ []) →
    splitWSAux l cur = [cur.reverse ++ l] := by
  intro l
  induction l with
  | nil =>
    intro cur h hne
    rcases hne with hc | hl
    · simp [splitWSAux, hc]
    · simp at hl
  | cons c cs ih =>
    intro cur h hne
    rw [splitWSAux]
    rw [if_neg (by simp [h c (by simp)])]
    rw [ih (c :: cur) (fun x hx => h x (by simp [hx])) (Or.inl (by simp))]
    simp

theorem pySplit_single (s : String) (h1 : s.toList ≠ [])
    (h2 : ∀ c ∈ s.toList, c.isWhitespace = false) : pySplit s = [s] := by
  obtain ⟨d⟩ := s
  rw [pySplit, splitWSAux_no_ws _ [] h2 (Or.inr h1)]
  rfl

theorem process_file_write_eq (sqrt : ℚ → ℚ) (lines : List String)
    (outdir basename tok header : String)
    (data valid outliers : List DataLine)
    (zthresh dm dsd sm ssd hm hsd : ℚ)
    (hread : read_summary_file lines = .ok (header, data))
    (hd : calculate_stats sqrt (data.map (fun x => x.depth)) true = .ok (dm, dsd))
    (hs : calculate_stats sqrt (data.map (fun x => x.stiff)) true = .ok (sm, ssd))
    (hh : calculate_stats sqrt (data.map (fun x => x.hard)) true = .ok (hm, hsd))
    (hcl : classify_points dm dsd sm ssd hm hsd zthresh data =
      .ok (valid, outliers))
    (htok : firstToken basename = some tok) :
    process_file sqrt lines outdir basename zthresh true =
      ([(outdir ++ "/" ++ tok ++ "_clean.txt",
          write_summary_file valid header),
        (outdir ++ "/" ++ tok ++ "_outliers.txt",
          write_summary_file outliers header)],
       select_best sm valid) := by
  rw [process_file, hread]
  simp only [hd, hs, hh, hcl, htok]
  simp

/-- C9 counterexample: for an input file whose base name contains a space
("my data.txt") the code derives the output names from only the first
whitespace-separated token of the base name, producing "my_clean.txt" and
"my_outliers.txt" rather than names built from the full base name. -/
theorem output_files_names_cex :
    (process_file (fun q => q)
        ["Number of Data Points = 2", "", "HEADER",
          "A 1 a a a a a 10 a 20 30", "B 2 a a a a a 11 a 25 33"]
        "/d" "my data.txt" 0 true).1.map Prod.fst =
      ["/d/my_clean.txt", "/d/my_outliers.txt"] ∧
    "/d/my_clean.txt" ≠ "/d/my data.txt_clean.txt" := by
  constructor
  · rw [process_file_write_eq (fun q => q)
      ["Number of Data Points = 2", "", "HEADER",
        "A 1 a a a a a 10 a 20 30", "B 2 a a a a a 11 a 25 33"]
      "/d" "my data.txt" "my" "HEADER" [lineA, lineB] [] [lineA, lineB] 0
      (21 / 2) (1 / 2) (45 / 2) (25 / 2) (63 / 2) (9 / 2)
      (by simp [read_summary_file, summary_loop, parse_data_line, pySplit,
        splitWSAux, pyStrip, pyFloat, readSign, readMantissa, readExponent,
        digitsVal, lineA, lineB])
      (by norm_num [calculate_stats, lineA, lineB])
      (by norm_num [calculate_stats, lineA, lineB])
      (by norm_num [calculate_stats, lineA, lineB])
      (by norm_num [classify_points, is_outlier, lineA, lineB,
        abs_of_nonneg, abs_of_nonpos])
      (by simp [firstToken, pySplit, splitWSAux])]
    simp
  · simp

/-- C9 (amended): with writing enabled and a successful classification,
`process_file` writes exactly two files, in the input file's directory,
named `{tok}_clean.txt` and `{tok}_outliers.txt` where `tok` is the first
whitespace-separated token of the input's base name — which equals the
full base name exactly when the base name is nonempty and contains no
whitespace, the case stated here. -/
theorem output_files_names (sqrt : ℚ → ℚ) (lines : List String)
    (outdir basename header : String) (data valid outliers : List DataLine)
    (zthresh : ℚ)
    (hread : read_summary_file lines = .ok (header, data))
    (hrun : run_classify sqrt data zthresh = .ok (valid, outliers))
    (hb1 : basename.toList ≠ [])
    (hb2 : ∀ c ∈ basename.toList, c.isWhitespace = false) :
    (process_file sqrt lines outdir basename zthresh true).1 =
      [(outdir ++ "/" ++ basename ++ "_clean.txt",
        write_summary_file valid header),
       (outdir ++ "/" ++ basename ++ "_outliers.txt",
        write_summary_file outliers header)] := by
  obtain ⟨dm, dsd, sm, ssd, hm, hsd, hd, hs, hh, hcl⟩ :=
    run_classify_ok_elim sqrt data zthresh valid outliers hrun
  have htok : firstToken basename = some basename := by
    rw [firstToken, pySplit_single basename hb1 hb2]; rfl
  rw [process_file_write_eq sqrt lines outdir basename basename header data
    valid outliers zthresh dm dsd sm ssd hm hsd hread hd hs hh hcl htok]

/-- C9 witness: the two output files for a concrete run with base name
"S1.txt" (no whitespace), written into the input's directory "/d". -/
theorem output_files_names_witness :
    (process_file (fun q => q)
        ["Number of Data Points = 2", "", "HEADER",
          "A 1 a a a a a 10 a 20 30", "B 2 a a a a a 11 a 25 33"]
        "/d" "S1.txt" 3 true).1 =
      [("/d" ++ "/" ++ "S1.txt" ++ "_clean.txt",
        write_summary_file [lineA, lineB] "HEADER"),
       ("/d" ++ "/" ++ "S1.txt" ++ "_outliers.txt",
        write_summary_file [] "HEADER")] :=
  output_files_names (fun q => q)
    ["Number of Data Points = 2", "", "HEADER",
      "A 1 a a a a a 10 a 20 30", "B 2 a a a a a 11 a 25 33"]
    "/d" "S1.txt" "HEADER" [lineA, lineB] [lineA, lineB] [] 3
    (by simp [read_summary_file, summary_loop, parse_data_line, pySplit,
      splitWSAux, pyStrip, pyFloat, readSign, readMantissa, readExponent,
      digitsVal, lineA, lineB])
    (by norm_num [run_classify, calculate_stats, classify_points, is_outlier,
      lineA, lineB, abs_of_nonneg, abs_of_nonpos])
    (by simp)
    (by decide)

/-- C10: when writing is enabled and classification leaves the valid
record set empty, `process_file` has already written both summary files —
an empty clean file and the outlier file — before the selection step
fails with the `AttributeError` crash: the failure is not atomic and the
on-disk outputs of the failed run remain. -/
theorem process_file_writes_before_failure (sqrt : ℚ → ℚ)
    (lines : List String) (outdir basename tok header : String)
    (data outliers : List DataLine) (zthresh : ℚ)
    (hread : read_summary_file lines = .ok (header, data))
    (hrun : run_classify sqrt data zthresh = .ok ([], outliers))
    (htok : firstToken basename = some tok) :
    process_file sqrt lines outdir basename zthresh true =
      ([(outdir ++ "/" ++ tok ++ "_clean.txt", write_summary_file [] header),
        (outdir ++ "/" ++ tok ++ "_outliers.txt",
          write_summary_file outliers header)],
       .error .attributeError) := by
  obtain ⟨dm, dsd, sm, ssd, hm, hsd, hd, hs, hh, hcl⟩ :=
    run_classify_ok_elim sqrt data zthresh [] outliers hrun
  rw [process_file_write_eq sqrt lines outdir basename tok header data []
    outliers zthresh dm dsd sm ssd hm hsd hread hd hs hh hcl htok]
  rw [select_best_nil]

/-- C10 witness: with threshold 0 every record is an outlier, so the run
on a concrete two-record summary file writes an empty clean file plus the
two-record outlier file and then fails with `AttributeError`. -/
theorem process_file_writes_before_failure_witness :
    process_file (fun q => q)
      ["Number of Data Points = 2", "", "HEADER",
        "A 1 a a a a a 10 a 20 30", "B 2 a a a a a 11 a 25 33"]
      "/d" "S1.txt" 0 true =
      ([("/d" ++ "/" ++ "S1.txt" ++ "_clean.txt",
          write_summary_file [] "HEADER"),
        ("/d" ++ "/" ++ "S1.txt" ++ "_outliers.txt",
          write_summary_file [lineA, lineB] "HEADER")],
       .error .attributeError) :=
  process_file_writes_before_failure (fun q => q)
    ["Number of Data Points = 2", "", "HEADER",
      "A 1 a a a a a 10 a 20 30", "B 2 a a a a a 11 a 25 33"]
    "/d" "S1.txt" "S1.txt" "HEADER" [lineA, lineB] [lineA, lineB] 0
    (by simp [read_summary_file, summary_loop, parse_data_line, pySplit,
      splitWSAux, pyStrip, pyFloat, readSign, readMantissa, readExponent,
      digitsVal, lineA, lineB])
    (by norm_num [run_classify, calculate_stats, classify_points, is_outlier,
      lineA, lineB, abs_of_nonneg, abs_of_nonpos])
    (by decide)

end Process
